import Mathlib

/-!
Shallow embedding of the OpenModel vector header (src/headers/openmodel.h):
an abstract Vector base class with concrete Vector2D and Vector3D variants.
C++ floats are modelled as real numbers. The header implements only the
base-class operator== and operator!= inline (lines 51-63); every other member
is declared without a body, so those operations are modelled from the
specification, as marked on each definition.
-/

namespace OpenModel

/-- A C++ raw pointer return value: either nullptr or a pointed-to value.
Used to embed the pointer-returning cross product of the 2D variant, whose
source comment documents a nullptr result. -/
inductive CPtr (α : Type) where
  | nullptr : CPtr α
  | valid : α → CPtr α

/-- The 2D vector variant: float fields x and y (modelled as reals). -/
@[ext] structure Vector2D where
  x : ℝ
  y : ℝ

/-- The 3D vector variant: float fields x, y and z (modelled as reals). -/
@[ext] structure Vector3D where
  x : ℝ
  y : ℝ
  z : ℝ

/-- The explicit error outcomes the specification requires for the degenerate
operations (section 7): dividing by a zero scalar and normalizing a
zero-magnitude vector. -/
inductive VectorError where
  | zeroScalarDivide : VectorError
  | degenerateNormalize : VectorError

/-- Modelled from the spec: the body of Vector2D::magnitude is absent from the
source (declaration only, line 87); section 4.1 defines magnitude as the
Euclidean norm, the square root of the sum of squared components. -/
noncomputable def Vector2D.magnitude (v : Vector2D) : ℝ :=
  Real.sqrt (v.x ^ 2 + v.y ^ 2)

/-- Modelled from the spec: the body of Vector3D::magnitude is absent from the
source (declaration only, line 115); section 4.1 defines magnitude as the
Euclidean norm. -/
noncomputable def Vector3D.magnitude (v : Vector3D) : ℝ :=
  Real.sqrt (v.x ^ 2 + v.y ^ 2 + v.z ^ 2)

/-- Modelled from the spec: the body of Vector2D::dot is absent from the source
(declaration only, line 89); section 4.1 defines dot as the sum of
componentwise products of two same-variant vectors. -/
def Vector2D.dot (a b : Vector2D) : ℝ := a.x * b.x + a.y * b.y

/-- Modelled from the spec: the body of Vector3D::dot is absent from the source
(declaration only, line 117); section 4.1 defines dot as the sum of
componentwise products. -/
def Vector3D.dot (a b : Vector3D) : ℝ := a.x * b.x + a.y * b.y + a.z * b.z

/-- Modelled from the spec: the body of Vector2D::operator+ is absent from the
source (declaration only, line 94); section 4.1: componentwise sum, returning
a newly constructed same-variant vector. -/
def Vector2D.add (a b : Vector2D) : Vector2D := ⟨a.x + b.x, a.y + b.y⟩

/-- Modelled from the spec: the body of Vector2D::operator- is absent from the
source (declaration only, line 95); section 4.1: componentwise difference. -/
def Vector2D.sub (a b : Vector2D) : Vector2D := ⟨a.x - b.x, a.y - b.y⟩

/-- Modelled from the spec: the body of Vector2D::operator* is absent from the
source (declaration only, line 96); section 4.1: componentwise multiply by a
scalar. -/
def Vector2D.smul (a : Vector2D) (scalar : ℝ) : Vector2D :=
  ⟨a.x * scalar, a.y * scalar⟩

/-- Modelled from the spec: the body of Vector3D::operator+ is absent from the
source (declaration only, line 122); section 4.1: componentwise sum. -/
def Vector3D.add (a b : Vector3D) : Vector3D := ⟨a.x + b.x, a.y + b.y, a.z + b.z⟩

/-- Modelled from the spec: the body of Vector3D::operator- is absent from the
source (declaration only, line 123); section 4.1: componentwise difference. -/
def Vector3D.sub (a b : Vector3D) : Vector3D := ⟨a.x - b.x, a.y - b.y, a.z - b.z⟩

/-- Modelled from the spec: the body of Vector3D::operator* is absent from the
source (declaration only, line 124); section 4.1: componentwise multiply by a
scalar. -/
def Vector3D.smul (a : Vector3D) (scalar : ℝ) : Vector3D :=
  ⟨a.x * scalar, a.y * scalar, a.z * scalar⟩

/-- Modelled from the spec: the body of Vector2D::operator/ is absent from the
source (declaration only, line 97); section 7 requires an explicit error on a
zero scalar, otherwise a componentwise divide. -/
noncomputable def Vector2D.div (v : Vector2D) (scalar : ℝ) :
    Except VectorError Vector2D :=
  if scalar = 0 then .error .zeroScalarDivide
  else .ok ⟨v.x / scalar, v.y / scalar⟩

/-- Modelled from the spec: the body of Vector3D::operator/ is absent from the
source (declaration only, line 125); section 7 requires an explicit error on a
zero scalar, otherwise a componentwise divide. -/
noncomputable def Vector3D.div (v : Vector3D) (scalar : ℝ) :
    Except VectorError Vector3D :=
  if scalar = 0 then .error .zeroScalarDivide
  else .ok ⟨v.x / scalar, v.y / scalar, v.z / scalar⟩

/-- Modelled from the spec: the body of Vector2D::normalize is absent from the
source (declaration only, line 88); section 7 requires the zero-magnitude case
to be an explicit degenerate-input error rather than a silent division by
zero, otherwise each component is divided by the magnitude. -/
noncomputable def Vector2D.normalize (v : Vector2D) :
    Except VectorError Vector2D :=
  if v.magnitude = 0 then .error .degenerateNormalize
  else .ok ⟨v.x / v.magnitude, v.y / v.magnitude⟩

/-- Modelled from the spec: the body of Vector3D::normalize is absent from the
source (declaration only, line 116); same policy as the 2D variant. -/
noncomputable def Vector3D.normalize (v : Vector3D) :
    Except VectorError Vector3D :=
  if v.magnitude = 0 then .error .degenerateNormalize
  else .ok ⟨v.x / v.magnitude, v.y / v.magnitude, v.z / v.magnitude⟩

/-- Modelled from the spec: the body of Vector3D::cross is absent from the
source (declaration only, line 118); section 4.3 gives the standard formula
(a.y*b.z - a.z*b.y, a.z*b.x - a.x*b.z, a.x*b.y - a.y*b.x). -/
def Vector3D.cross (a b : Vector3D) : Vector3D :=
  ⟨a.y * b.z - a.z * b.y, a.z * b.x - a.x * b.z, a.x * b.y - a.y * b.x⟩

/-- Modelled from the spec: the body of Vector2D::operator== is absent from the
source (declaration only, line 98); section 4.2: equality compares x and y
independently against tolerance 1e-4, not magnitude. -/
def Vector2D.veq (a b : Vector2D) : Prop :=
  |a.x - b.x| < 0.0001 ∧ |a.y - b.y| < 0.0001

/-- Modelled from the spec: the body of Vector3D::operator== is absent from the
source (declaration only, line 126); section 4.3: equality compares all three
components independently against tolerance 1e-4. -/
def Vector3D.veq (a b : Vector3D) : Prop :=
  |a.x - b.x| < 0.0001 ∧ |a.y - b.y| < 0.0001 ∧ |a.z - b.z| < 0.0001

/-- A value of the abstract base class Vector: one of the two variants. -/
inductive Vec where
  | v2 : Vector2D → Vec
  | v3 : Vector3D → Vec

/-- The virtual magnitude of a base-class vector value: dispatches to the
variant implementation. -/
noncomputable def Vec.magnitude : Vec → ℝ
  | .v2 a => a.magnitude
  | .v3 a => a.magnitude

/-- From the source, lines 51-59: the base-class operator== compares the two
magnitudes with epsilon 0.0001 (the only member the header implements,
together with operator!=). -/
def Vec.baseEq (a b : Vec) : Prop :=
  |a.magnitude - b.magnitude| < 0.0001

/-- From the source, lines 61-63: the base-class operator!= is the negation of
the base-class operator==. -/
def Vec.baseNe (a b : Vec) : Prop := ¬ a.baseEq b

/-- From the source comment on line 90 (body absent): Vector2D::cross returns
nullptr, as cross product is not defined for 2D vectors; the declared return
type is a raw Vector pointer. -/
def Vector2D.cross (_a : Vector2D) (_other : Vec) : CPtr Vec := CPtr.nullptr

/-- The virtual dot product of two base-class vector values; the spec
(section 4.4) requires both operands to be the same variant for dot to be
meaningful, so the mismatched-variant case lies outside the contract and is
modelled as 0. -/
def Vec.dot : Vec → Vec → ℝ
  | .v2 a, .v2 b => a.dot b
  | .v3 a, .v3 b => a.dot b
  | _, _ => 0

/-- Modelled from the spec: section 4.4 requires the cosine value handed to the
inverse cosine to be clamped to the interval from -1 to 1. -/
def clampUnit (r : ℝ) : ℝ := max (-1) (min 1 r)

/-- Modelled from the spec: the body of angleBetween is absent from the source
(declaration only, line 135); section 4.4: the arc cosine, in radians, of
dot(a,b) / (|a| * |b|), clamped to the unit interval around zero first. -/
noncomputable def angleBetween (a b : Vec) : ℝ :=
  Real.arccos (clampUnit (a.dot b / (a.magnitude * b.magnitude)))

/-- Modelled from the spec: the body of the free function OpenModel::cross is
absent from the source (declaration only, line 132); section 4.4 describes it
as the member cross product in non-member form, i.e. the standard formula of
section 4.3, written out independently here so the equivalence can be
compared. -/
def cross (a b : Vector3D) : Vector3D :=
  ⟨a.y * b.z - a.z * b.y, a.z * b.x - a.x * b.z, a.x * b.y - a.y * b.x⟩

/-- Helper: dividing each component of a 2D vector by its nonzero magnitude
yields a vector of magnitude exactly 1. -/
theorem Vector2D.magnitude_normalized2 (v : Vector2D) (h : v.magnitude ≠ 0) :
    (Vector2D.mk (v.x / v.magnitude) (v.y / v.magnitude)).magnitude = 1 := by
  have hs : (0 : ℝ) ≤ v.x ^ 2 + v.y ^ 2 := by positivity
  have hm : v.magnitude ^ 2 = v.x ^ 2 + v.y ^ 2 := Real.sq_sqrt hs
  show Real.sqrt ((v.x / v.magnitude) ^ 2 + (v.y / v.magnitude) ^ 2) = 1
  rw [div_pow, div_pow, div_add_div_same, ← hm, div_self (pow_ne_zero 2 h),
    Real.sqrt_one]

/-- Helper: dividing each component of a 3D vector by its nonzero magnitude
yields a vector of magnitude exactly 1. -/
theorem Vector3D.magnitude_normalized3 (v : Vector3D) (h : v.magnitude ≠ 0) :
    (Vector3D.mk (v.x / v.magnitude) (v.y / v.magnitude)
      (v.z / v.magnitude)).magnitude = 1 := by
  have hs : (0 : ℝ) ≤ v.x ^ 2 + v.y ^ 2 + v.z ^ 2 := by positivity
  have hm : v.magnitude ^ 2 = v.x ^ 2 + v.y ^ 2 + v.z ^ 2 := Real.sq_sqrt hs
  show Real.sqrt ((v.x / v.magnitude) ^ 2 + (v.y / v.magnitude) ^ 2 +
    (v.z / v.magnitude) ^ 2) = 1
  rw [div_pow, div_pow, div_pow, div_add_div_same, div_add_div_same, ← hm,
    div_self (pow_ne_zero 2 h), Real.sqrt_one]

/-- Claim C1: for two vectors of the same variant, the variant-level equality
holds iff every component is within tolerance 1e-4 of the corresponding
component of the other; it is not decided by magnitude alone: the 2D unit
vectors along x and y share a magnitude yet compare unequal. -/
theorem variant_eq_componentwise :
    (∀ a b : Vector2D,
      a.veq b ↔ (|a.x - b.x| < 0.0001 ∧ |a.y - b.y| < 0.0001)) ∧
    (∀ a b : Vector3D,
      a.veq b ↔
        (|a.x - b.x| < 0.0001 ∧ |a.y - b.y| < 0.0001 ∧ |a.z - b.z| < 0.0001)) ∧
    (Vector2D.mk 1 0).magnitude = (Vector2D.mk 0 1).magnitude ∧
    ¬ (Vector2D.mk 1 0).veq (Vector2D.mk 0 1) := by
  refine ⟨fun a b => Iff.rfl, fun a b => Iff.rfl, ?_, ?_⟩
  · show Real.sqrt (1 ^ 2 + 0 ^ 2) = Real.sqrt (0 ^ 2 + 1 ^ 2)
    norm_num
  · show ¬ (|(1 : ℝ) - 0| < 0.0001 ∧ |(0 : ℝ) - 1| < 0.0001)
    norm_num

/-- Claim C2, as stated, refuted at a concrete input: the 2D cross product of
the unit vectors along x and y is the null pointer, contradicting the claim
that a null pointer is never returned. -/
theorem cross2D_nullptr_at_unit_vectors :
    Vector2D.cross ⟨1, 0⟩ (.v2 ⟨0, 1⟩) = CPtr.nullptr := rfl

/-- Claim C2, amended: for every pair of a 2D vector and any other vector, the
2D cross product returns the well-defined nullptr sentinel meaning
not-applicable; it never returns a valid vector and no undefined behavior is
involved. -/
theorem cross2D_always_nullptr :
    ∀ (a : Vector2D) (b : Vec), a.cross b = CPtr.nullptr := fun _ _ => rfl

/-- Claim C3: dividing any vector of either variant by the zero scalar yields
the explicit zero-scalar error outcome surfaced to the caller, not a result
vector. -/
theorem divide_by_zero_explicit_error :
    (∀ v : Vector2D, v.div 0 = Except.error VectorError.zeroScalarDivide) ∧
    (∀ v : Vector3D, v.div 0 = Except.error VectorError.zeroScalarDivide) := by
  constructor <;> intro v <;> simp [Vector2D.div, Vector3D.div]

/-- Claim C6: the member cross product of the 3D variant follows the standard
formula, and the 3D magnitude is the non-negative Euclidean norm, the square
root of the sum of the squared components. -/
theorem cross3D_formula_magnitude_nonneg :
    (∀ a b : Vector3D, a.cross b =
      ⟨a.y * b.z - a.z * b.y, a.z * b.x - a.x * b.z, a.x * b.y - a.y * b.x⟩) ∧
    (∀ v : Vector3D,
      v.magnitude = Real.sqrt (v.x ^ 2 + v.y ^ 2 + v.z ^ 2) ∧ 0 ≤ v.magnitude) :=
  ⟨fun _ _ => rfl, fun _ => ⟨rfl, Real.sqrt_nonneg _⟩⟩

/-- Claim C8: the free cross function agrees with the member cross product on
every pair of 3D vectors. -/
theorem free_cross_eq_member_cross :
    ∀ a b : Vector3D, cross a b = a.cross b := fun _ _ => rfl

/-- Claim C4: for same-variant operands, angleBetween is the arc cosine of the
dot product over the product of magnitudes, with the value clamped into the
interval from -1 to 1 before the arc cosine, so it is never applied outside
its domain; on the 2D unit vectors it gives 0 for equal directions and pi/2
for perpendicular ones. -/
theorem angleBetween_clamped_acos :
    (∀ a b : Vector2D, angleBetween (.v2 a) (.v2 b) =
      Real.arccos (clampUnit (a.dot b / (a.magnitude * b.magnitude)))) ∧
    (∀ a b : Vector3D, angleBetween (.v3 a) (.v3 b) =
      Real.arccos (clampUnit (a.dot b / (a.magnitude * b.magnitude)))) ∧
    (∀ r : ℝ, -1 ≤ clampUnit r ∧ clampUnit r ≤ 1) ∧
    angleBetween (.v2 ⟨1, 0⟩) (.v2 ⟨1, 0⟩) = 0 ∧
    angleBetween (.v2 ⟨1, 0⟩) (.v2 ⟨0, 1⟩) = Real.pi / 2 := by
  refine ⟨fun a b => rfl, fun a b => rfl, fun r => ⟨le_max_left _ _, ?_⟩, ?_, ?_⟩
  · exact max_le (by norm_num) (min_le_left _ _)
  · show Real.arccos (clampUnit ((1 * 1 + 0 * 0) /
      (Real.sqrt (1 ^ 2 + 0 ^ 2) * Real.sqrt (1 ^ 2 + 0 ^ 2)))) = 0
    rw [show ((1 : ℝ) ^ 2 + 0 ^ 2) = 1 by norm_num, Real.sqrt_one]
    rw [show ((1 : ℝ) * 1 + 0 * 0) / (1 * 1) = 1 by norm_num]
    rw [show clampUnit 1 = 1 by
      rw [clampUnit, min_self]; exact max_eq_right (by norm_num)]
    exact Real.arccos_one
  · show Real.arccos (clampUnit ((1 * 0 + 0 * 1) /
      (Real.sqrt (1 ^ 2 + 0 ^ 2) * Real.sqrt (0 ^ 2 + 1 ^ 2)))) = Real.pi / 2
    rw [show ((1 : ℝ) ^ 2 + 0 ^ 2) = 1 by norm_num,
      show ((0 : ℝ) ^ 2 + 1 ^ 2) = 1 by norm_num, Real.sqrt_one]
    rw [show ((1 : ℝ) * 0 + 0 * 1) / (1 * 1) = 0 by norm_num]
    rw [show clampUnit 0 = 0 by
      rw [clampUnit, min_eq_right (by norm_num : (0 : ℝ) ≤ 1)]
      exact max_eq_right (by norm_num)]
    exact Real.arccos_zero

/-- Claim C5: normalizing a vector of nonzero magnitude succeeds and the
result has magnitude within 1e-4 of 1, for both variants; normalizing a
zero-magnitude vector yields the explicit degenerate-input outcome, so no
division by zero ever happens. -/
theorem normalize_magnitude_one :
    (∀ v : Vector2D, v.magnitude ≠ 0 →
      ∃ w, v.normalize = Except.ok w ∧ |w.magnitude - 1| < 0.0001) ∧
    (∀ v : Vector3D, v.magnitude ≠ 0 →
      ∃ w, v.normalize = Except.ok w ∧ |w.magnitude - 1| < 0.0001) ∧
    (∀ v : Vector2D, v.magnitude = 0 →
      v.normalize = Except.error VectorError.degenerateNormalize) ∧
    (∀ v : Vector3D, v.magnitude = 0 →
      v.normalize = Except.error VectorError.degenerateNormalize) := by
  refine ⟨fun v h => ?_, fun v h => ?_, fun v h => ?_, fun v h => ?_⟩
  · refine ⟨⟨v.x / v.magnitude, v.y / v.magnitude⟩, ?_, ?_⟩
    · simp [Vector2D.normalize, h]
    · rw [Vector2D.magnitude_normalized2 v h, sub_self, abs_zero]; norm_num
  · refine ⟨⟨v.x / v.magnitude, v.y / v.magnitude, v.z / v.magnitude⟩, ?_, ?_⟩
    · simp [Vector3D.normalize, h]
    · rw [Vector3D.magnitude_normalized3 v h, sub_self, abs_zero]; norm_num
  · simp [Vector2D.normalize, h]
  · simp [Vector3D.normalize, h]

/-- Witness for claim C5: the theorem applied at the concrete 2D vector
(3, 4), the 3D vector (0, 0, 2), and the zero vectors of both variants. -/
theorem normalize_magnitude_one_witness :
    (∃ w, (Vector2D.mk 3 4).normalize = Except.ok w ∧
      |w.magnitude - 1| < 0.0001) ∧
    (∃ w, (Vector3D.mk 0 0 2).normalize = Except.ok w ∧
      |w.magnitude - 1| < 0.0001) ∧
    (Vector2D.mk 0 0).normalize = Except.error VectorError.degenerateNormalize ∧
    (Vector3D.mk 0 0 0).normalize =
      Except.error VectorError.degenerateNormalize := by
  refine ⟨normalize_magnitude_one.1 ⟨3, 4⟩ ?_,
    normalize_magnitude_one.2.1 ⟨0, 0, 2⟩ ?_,
    normalize_magnitude_one.2.2.1 ⟨0, 0⟩ ?_,
    normalize_magnitude_one.2.2.2 ⟨0, 0, 0⟩ ?_⟩
  · show Real.sqrt ((3 : ℝ) ^ 2 + 4 ^ 2) ≠ 0
    positivity
  · show Real.sqrt ((0 : ℝ) ^ 2 + 0 ^ 2 + 2 ^ 2) ≠ 0
    positivity
  · show Real.sqrt ((0 : ℝ) ^ 2 + 0 ^ 2) = 0
    norm_num
  · show Real.sqrt ((0 : ℝ) ^ 2 + 0 ^ 2 + 0 ^ 2) = 0
    norm_num

/-- Claim C7: the dot product is commutative for both variants; the 3D cross
product is anti-commutative (cross of a and b equals the cross of b and a
scaled by -1) and orthogonal to its first argument. -/
theorem dot_comm_cross_anticomm :
    (∀ a b : Vector2D, a.dot b = b.dot a) ∧
    (∀ a b : Vector3D, a.dot b = b.dot a) ∧
    (∀ a b : Vector3D, a.cross b = (b.cross a).smul (-1)) ∧
    (∀ a b : Vector3D, a.dot (a.cross b) = 0) := by
  refine ⟨fun a b => ?_, fun a b => ?_, fun a b => ?_, fun a b => ?_⟩
  · show a.x * b.x + a.y * b.y = b.x * a.x + b.y * a.y
    ring
  · show a.x * b.x + a.y * b.y + a.z * b.z = b.x * a.x + b.y * a.y + b.z * a.z
    ring
  · ext
    · show a.y * b.z - a.z * b.y = (b.y * a.z - b.z * a.y) * (-1)
      ring
    · show a.z * b.x - a.x * b.z = (b.z * a.x - b.x * a.z) * (-1)
      ring
    · show a.x * b.y - a.y * b.x = (b.x * a.y - b.y * a.x) * (-1)
      ring
  · show a.x * (a.y * b.z - a.z * b.y) + a.y * (a.z * b.x - a.x * b.z) +
      a.z * (a.x * b.y - a.y * b.x) = 0
    ring

/-- Claim C9: adding to a vector its own scaling by -1 gives the zero vector
componentwise, for both variants; each arithmetic operation is a pure
function that returns a vector newly constructed from the operand components,
so the operands themselves are left unchanged. -/
theorem add_neg_self_zero :
    (∀ v : Vector2D, v.add (v.smul (-1)) = ⟨0, 0⟩) ∧
    (∀ v : Vector3D, v.add (v.smul (-1)) = ⟨0, 0, 0⟩) ∧
    (∀ a b : Vector2D, a.add b = ⟨a.x + b.x, a.y + b.y⟩ ∧
      a.sub b = ⟨a.x - b.x, a.y - b.y⟩) ∧
    (∀ (a : Vector2D) (s : ℝ), a.smul s = ⟨a.x * s, a.y * s⟩) ∧
    (∀ a b : Vector3D, a.add b = ⟨a.x + b.x, a.y + b.y, a.z + b.z⟩ ∧
      a.sub b = ⟨a.x - b.x, a.y - b.y, a.z - b.z⟩) ∧
    (∀ (a : Vector3D) (s : ℝ), a.smul s = ⟨a.x * s, a.y * s, a.z * s⟩) := by
  refine ⟨fun v => ?_, fun v => ?_, fun a b => ⟨rfl, rfl⟩, fun a s => rfl,
    fun a b => ⟨rfl, rfl⟩, fun a s => rfl⟩
  · ext
    · show v.x + v.x * (-1) = 0
      ring
    · show v.y + v.y * (-1) = 0
      ring
  · ext
    · show v.x + v.x * (-1) = 0
      ring
    · show v.y + v.y * (-1) = 0
      ring
    · show v.z + v.z * (-1) = 0
      ring

/-- Claim C10: the base-class operator!= is exactly the negation of the
base-class operator==, which holds iff the two magnitudes differ by less than
0.0001; consequently any two vectors of equal magnitude compare equal under
it, regardless of direction or dimensionality, as the 2D unit vector along x
and the 3D unit vector along z illustrate. -/
theorem base_eq_magnitude_only :
    (∀ a b : Vec, a.baseNe b ↔ ¬ a.baseEq b) ∧
    (∀ a b : Vec, a.baseEq b ↔ |a.magnitude - b.magnitude| < 0.0001) ∧
    (∀ a b : Vec, a.magnitude = b.magnitude → a.baseEq b) ∧
    Vec.baseEq (.v2 ⟨1, 0⟩) (.v3 ⟨0, 0, 1⟩) := by
  refine ⟨fun a b => Iff.rfl, fun a b => Iff.rfl, fun a b h => ?_, ?_⟩
  · show |a.magnitude - b.magnitude| < 0.0001
    rw [h, sub_self, abs_zero]; norm_num
  · show |Real.sqrt (1 ^ 2 + 0 ^ 2) - Real.sqrt (0 ^ 2 + 0 ^ 2 + 1 ^ 2)| < 0.0001
    rw [show ((1 : ℝ) ^ 2 + 0 ^ 2) = 1 by norm_num,
      show ((0 : ℝ) ^ 2 + 0 ^ 2 + 1 ^ 2) = 1 by norm_num, Real.sqrt_one,
      sub_self, abs_zero]
    norm_num

/-- Witness for claim C10: the theorem applied to the concrete 2D unit
vectors along y and x, whose magnitudes are equal. -/
theorem base_eq_magnitude_only_witness :
    Vec.baseEq (.v2 ⟨0, 1⟩) (.v2 ⟨1, 0⟩) :=
  base_eq_magnitude_only.2.2.1 (.v2 ⟨0, 1⟩) (.v2 ⟨1, 0⟩) (by
    show Real.sqrt (0 ^ 2 + 1 ^ 2) = Real.sqrt (1 ^ 2 + 0 ^ 2)
    norm_num)

end OpenModel
